import Mathlib

/-!
Verification of the texture / material core of this repository.

The definitions below are shallow embeddings of the JavaScript sources:

* `BaseTexture` and the cache operations embed the older `TextureSource`
  variant (the `dirtyId` counter, `addToCache` / `removeFromCache` /
  `destroy`) found in `src/plugins/texture/src/Texture.js`.
* `NewRes` / `NewTS` embed `TextureResource`, `BufferResource` and the newer
  `TextureSource` of `src/plugins/texture/src/TextureSource.js`.
* `TexState` embeds the newer `Texture` of `src/plugins/texture/src/Texture.js`.
* `MaterialState` embeds `src/plugins/core/src/material/Material.js`
  (the second, most-evolved variant in that file).
* `uvsSet` embeds `TextureUVs#set` of `src/plugins/texture/src/TextureUvs.js`.

JavaScript numbers are idealised as rationals where the code only ever
computes with them, and as real numbers where `Math.PI`, `Math.sin` and
`Math.cos` appear.  Debug-only `ASSERT` blocks (stripped from production
builds by the `@ifdef DEBUG` preprocessor) are embedded as separate named
predicates where a claim refers to them, and otherwise noted in comments.
-/

/-! ## JavaScript helpers (integer side) -/

/-- Truncation toward zero of a rational, as JavaScript ToIntegerOrInfinity
does for finite values. -/
def ratTrunc (q : ℚ) : ℤ :=
  if 0 ≤ q then ⌊q⌋ else -⌊-q⌋

/-- bit-twiddle `isPow2(v)`: `!(v & (v - 1)) && !!v`.  The dimensions this is
applied to are nonnegative integers; JavaScript coerces the operands of `&`
with ToInt32, which is the identity on that range, so we compute on the
truncated nonnegative part. -/
def jsIsPow2 (q : ℚ) : Bool :=
  let n : ℕ := (ratTrunc q).toNat
  n ≠ 0 && n &&& (n - 1) == 0

/-- JavaScript `Array.prototype.indexOf` (identity comparison is modelled by
comparing the numeric uids standing for the object references). -/
def jsIndexOf : List ℕ → ℕ → ℤ
  | [], _ => -1
  | a :: rest, x =>
    if a = x then 0
    else
      let r := jsIndexOf rest x
      if r = -1 then -1 else r + 1

/-! ## Old-variant resource and `TextureSource` (the `BaseTexture` rewrite)

The older variant keeps its version counter in `dirtyId`.  Its resource
counterpart is not part of `src/`; the fields below are the ones the
old `TextureSource` reads from it (`loaded`, `width`, `height`), plus a
numeric id standing for the object reference compared by
`this.resource === resource`. -/

structure OldRes where
  rid : ℕ
  width : ℚ
  height : ℚ
  loaded : Bool
deriving DecidableEq

/-- State of the old-variant `TextureSource` (called `BaseTexture` by the
static helpers in the same file).  `ttype` embeds the `type` field
(`type` is a Lean keyword). -/
structure BaseTexture where
  uid : ℕ
  width : ℚ
  height : ℚ
  resolution : ℚ
  isPowerOfTwo : Bool
  mipmap : Bool
  premultiplyAlpha : Bool
  scaleMode : ℕ
  wrapMode : ℕ
  format : ℕ
  ttype : ℕ
  target : ℕ
  dirtyId : ℕ
  valid : Bool
  resource : Option OldRes
  cacheId : Option String
  textureCacheIds : List String
deriving DecidableEq

/-- `get realWidth() { return this.width * this.resolution; }` -/
def btRealWidth (t : BaseTexture) : ℚ := t.width * t.resolution

/-- `get realHeight() { return this.height * this.resolution; }` -/
def btRealHeight (t : BaseTexture) : ℚ := t.height * t.resolution

/-- `updateResolution()`.  The source condition is
`resource && resource.width !== -1 && resource.hight !== -1`; the member
`hight` is misspelled, so the third conjunct reads `undefined`, which is
never `-1`, and the conjunct is always true. -/
def btUpdateResolution (t : BaseTexture) : BaseTexture :=
  match t.resource with
  | some r =>
    if r.width ≠ -1 then
      { t with width := r.width / t.resolution, height := r.height / t.resolution }
    else t
  | none => t

/-- `validate()`: `valid` becomes false exactly when a dimension is `-1`. -/
def btValidate (t : BaseTexture) : BaseTexture :=
  { t with valid := !(t.width == -1 || t.height == -1) }

/-- `resourceLoaded(resource)`: guarded by `this.resource === resource`;
recomputes dimensions, validity, and on a valid result derives
`isPowerOfTwo` and bumps `dirtyId`. -/
def btResourceLoaded (r : OldRes) (t : BaseTexture) : BaseTexture :=
  match t.resource with
  | some r2 =>
    if r2.rid = r.rid then
      let t1 := btValidate (btUpdateResolution t)
      if t1.valid then
        { t1 with
            isPowerOfTwo := jsIsPow2 (btRealWidth t1) && jsIsPow2 (btRealHeight t1),
            dirtyId := t1.dirtyId + 1 }
      else t1
    else t
  | none => t

/-- `setResource(resource)`: stores the resource and, when it is already
loaded, runs `resourceLoaded` synchronously.  (The `.then` continuation for
an unloaded resource is delivered later; it appears in the operation
language as a separate `resourceLoaded` step.) -/
def btSetResource (r : OldRes) (t : BaseTexture) : BaseTexture :=
  let t1 := { t with resource := some r }
  if r.loaded then btResourceLoaded r t1 else t1

/-- `resourceUpdated()` -/
def btResourceUpdated (t : BaseTexture) : BaseTexture :=
  { t with dirtyId := t.dirtyId + 1 }

/-- `update()` -/
def btUpdate (t : BaseTexture) : BaseTexture :=
  { t with dirtyId := t.dirtyId + 1 }

/-- `resize(width, height)` -/
def btResize (w h : ℚ) (t : BaseTexture) : BaseTexture :=
  { t with width := w, height := h, dirtyId := t.dirtyId + 1 }

/-! ## Global texture caches (old variant)

`BaseTextureCache` and `TextureCache` are module-level string-keyed objects.
They are embedded as association lists; `cacheInsert` mirrors the lookup
semantics of a JavaScript property assignment and `cacheDelete` mirrors the
`delete` operator. -/

structure CacheWorld where
  baseTextureCache : List (String × ℕ)
  textureCache : List (String × ℕ)
deriving DecidableEq

def cacheLookup : List (String × ℕ) → String → Option ℕ
  | [], _ => none
  | (k2, v) :: rest, k => if k2 = k then some v else cacheLookup rest k

def cacheDelete (k : String) : List (String × ℕ) → List (String × ℕ)
  | [] => []
  | (k2, v) :: rest =>
    if k2 = k then cacheDelete k rest else (k2, v) :: cacheDelete k rest

def cacheInsert (k : String) (v : ℕ) (c : List (String × ℕ)) : List (String × ℕ) :=
  (k, v) :: cacheDelete k c

def deleteKeys (ks : List String) (c : List (String × ℕ)) : List (String × ℕ) :=
  ks.foldl (fun acc k => cacheDelete k acc) c

/-- `static addToCache(baseTexture, id)`: when the id is truthy, record it on
the texture (if not already recorded) and store the texture in
`BaseTextureCache[id]`. -/
def btAddToCache (t : BaseTexture) (cid : String) (w : CacheWorld) :
    BaseTexture × CacheWorld :=
  if cid = "" then (t, w)
  else
    let t1 :=
      if cid ∈ t.textureCacheIds then t
      else { t with textureCacheIds := t.textureCacheIds ++ [cid] }
    (t1, { w with baseTextureCache := cacheInsert cid t1.uid w.baseTextureCache })

/-- The instance branch of `static removeFromCache(baseTexture)`: deletes
every key in `textureCacheIds` from `BaseTextureCache` and empties the
list. -/
def btRemoveFromCache (t : BaseTexture) (w : CacheWorld) :
    BaseTexture × CacheWorld :=
  ({ t with textureCacheIds := [] },
   { w with baseTextureCache := deleteKeys t.textureCacheIds w.baseTextureCache })

/-- `destroy()` of the old variant: the `cacheId` entry is deleted from both
caches, the resource is released, `dispose` fires, and
`removeFromCache(this)` clears all remaining aliases. -/
def btDestroy (t : BaseTexture) (w : CacheWorld) : BaseTexture × CacheWorld :=
  let s1 : BaseTexture × CacheWorld :=
    match t.cacheId with
    | some cid =>
      ({ t with cacheId := none },
       { baseTextureCache := cacheDelete cid w.baseTextureCache,
         textureCache := cacheDelete cid w.textureCache })
    | none => (t, w)
  let t1 := { s1.1 with resource := none }
  btRemoveFromCache t1 s1.2

/-- The mutating operations of the old-variant device resource, including
the cache-facing ones. -/
inductive BTOp
  | setResource (r : OldRes)
  | resourceLoaded (r : OldRes)
  | resourceUpdated
  | update
  | resize (w h : ℚ)
  | dispose
  | addToCache (cid : String)
  | removeFromCache
  | destroy

def btStep : BTOp → BaseTexture × CacheWorld → BaseTexture × CacheWorld
  | .setResource r, (t, w) => (btSetResource r t, w)
  | .resourceLoaded r, (t, w) => (btResourceLoaded r t, w)
  | .resourceUpdated, (t, w) => (btResourceUpdated t, w)
  | .update, (t, w) => (btUpdate t, w)
  | .resize a b, (t, w) => (btResize a b t, w)
  | .dispose, (t, w) => (t, w)
  | .addToCache cid, (t, w) => btAddToCache t cid w
  | .removeFromCache, (t, w) => btRemoveFromCache t w
  | .destroy, (t, w) => btDestroy t w

def btRun (ops : List BTOp) (s : BaseTexture × CacheWorld) :
    BaseTexture × CacheWorld :=
  ops.foldl (fun acc op => btStep op acc) s

/-! ## New-variant `TextureResource` / `BufferResource` / `TextureSource` -/

/-- `TextureResource`: carries opaque `data` (here: the length of the buffer
view, `none` after destroy), and dimensions initialised to `-1`. -/
structure NewRes where
  dataLen : Option ℕ
  width : ℚ
  height : ℚ
deriving DecidableEq

def mkTextureResource (len : ℕ) : NewRes :=
  { dataLen := some len, width := -1, height := -1 }

/-- `BufferResource`: `super(data)` and then `this.onReady.dispatch(this)`.
The dispatch happens inside the constructor, before any consumer can
subscribe, so it reaches no listener; the state is that of
`TextureResource`. -/
def mkBufferResource (len : ℕ) : NewRes :=
  mkTextureResource len

/-- `TextureResource#ready`. -/
def newResReady (r : NewRes) : Bool :=
  r.width ≠ -1 && r.height ≠ -1

/-- The new `TextureSource` resource setter tests `this._resource.loaded`.
No resource class in `src/` defines a `loaded` member (they define `ready`),
so the access yields `undefined`, which is falsy. -/
def resLoadedProp (_r : NewRes) : Bool := false

/-- `TextureResource#destroy`. -/
def newResDestroy (_r : NewRes) : NewRes :=
  { dataLen := none, width := -1, height := -1 }

/-- Constructor options of the new `TextureSource`.  `wrapMode` defaults to
`TextureSource.defaults.wrapMode = GLConstants.CLAMP_TO_EDGE_TO_EDGE`, a
misspelling that evaluates to `undefined`, hence the `Option`.  `ttype`
embeds the `type` option. -/
structure TextureSourceOptions where
  resolution : ℚ
  width : ℚ
  height : ℚ
  scaleMode : ℕ
  wrapMode : Option ℕ
  format : ℕ
  ttype : ℕ
  target : ℕ
  mipmap : Bool
  premultiplyAlpha : Bool
deriving DecidableEq

/-- Modelled from the spec: `settings.RESOLUTION` comes from the core
settings module, which is not among the sources; the spec and the jsdoc on
the `resolution` member give the default resolution as 1.  The remaining
defaults are `TextureSource.defaults` with the numeric values of the
referenced `GLConstants` (`LINEAR = 9729`, `RGBA = 6408`,
`UNSIGNED_BYTE = 5121`, `TEXTURE_2D = 3553`). -/
def defaultTextureSourceOptions : TextureSourceOptions :=
  { resolution := 1
    width := -1
    height := -1
    scaleMode := 9729
    wrapMode := none
    format := 6408
    ttype := 5121
    target := 3553
    mipmap := true
    premultiplyAlpha := true }

/-- State of the new-variant `TextureSource`. -/
structure NewTS where
  width : ℚ
  height : ℚ
  resolution : ℚ
  scaleMode : ℕ
  wrapMode : Option ℕ
  format : ℕ
  ttype : ℕ
  target : ℕ
  mipmap : Bool
  premultiplyAlpha : Bool
  isPowerOfTwo : Bool
  updateID : ℕ
  resource : Option NewRes
deriving DecidableEq

/-- `get ready() { return this.width !== -1 && this.height !== -1; }` -/
def newTSReady (s : NewTS) : Bool :=
  s.width ≠ -1 && s.height ≠ -1

/-- `UpdateComponent#update`: increments `updateID` and dispatches the
update signal. -/
def newUpdate (s : NewTS) : NewTS :=
  { s with updateID := s.updateID + 1 }

/-- `_updateDimensions()`. -/
def newUpdateDimensions (s : NewTS) : NewTS :=
  match s.resource with
  | some r =>
    if newResReady r then
      { s with width := r.width / s.resolution, height := r.height / s.resolution }
    else s
  | none => s

/-- `_onResourceReady()`: recompute dimensions and, when the source is
ready, derive `isPowerOfTwo`, bump the update version and dispatch
`onReady`. -/
def newOnResourceReady (s : NewTS) : NewTS :=
  let s1 := newUpdateDimensions s
  if newTSReady s1 then
    newUpdate
      { s1 with
          isPowerOfTwo :=
            jsIsPow2 (s1.width * s1.resolution) && jsIsPow2 (s1.height * s1.resolution) }
  else s1

/-- The `resource` setter: stores the (already-converted) resource and, when
`resource.loaded` is truthy, runs `_onResourceReady` immediately; otherwise
it subscribes to `resource.onReady`.  For a `BufferResource` that signal was
dispatched in the resource constructor before this subscription exists, so
the subscription never fires. -/
def newSetResource (r : NewRes) (s : NewTS) : NewTS :=
  let s1 := { s with resource := some r }
  if resLoadedProp r then newOnResourceReady s1 else s1

/-- The new `TextureSource` constructor (production build: the debug-only
parameter validation is stripped). -/
def newTextureSource (r : NewRes) (o : TextureSourceOptions) : NewTS :=
  newSetResource r
    { width := o.width
      height := o.height
      resolution := o.resolution
      scaleMode := o.scaleMode
      wrapMode := o.wrapMode
      format := o.format
      ttype := o.ttype
      target := o.target
      mipmap := o.mipmap
      premultiplyAlpha := o.premultiplyAlpha
      isPowerOfTwo := false
      updateID := 0
      resource := none }

inductive JsError
  | typeError
deriving DecidableEq

/-- The new `TextureSource#destroy`: signal bookkeeping, then
`this._resource.destroy(); this._resource = null;`.  When `_resource` is
already `null` (a previous destroy), the member access throws a
`TypeError`. -/
def newDestroy (s : NewTS) : Except JsError NewTS :=
  match s.resource with
  | none => .error .typeError
  | some _ => .ok { s with resource := none }

/-! ## New-variant `Texture` -/

structure Rect where
  x : ℚ
  y : ℚ
  width : ℚ
  height : ℚ
deriving DecidableEq

/-- State of the new-variant `Texture`.  `uvs` holds the contents of the
`Uint16Array` backing its `TextureUVs` object; `rotationInit` is the
`_rotation` member assigned by the constructor. -/
structure TexState where
  source : NewTS
  trim : Option Rect
  orig : Option Rect
  frame : Option Rect
  explicitFrame : Option Rect
  uvs : List ℕ
  rotationInit : ℚ
deriving DecidableEq

/-- The new `Texture` constructor with no frame argument.  The constructor
tests `source.valid`, a member the new `TextureSource` does not define
(its predicate is called `ready`), so the test is falsy and the
ready-branch that would derive a frame is never taken at construction;
`_frame` stays `null` and the constructor subscribes to `source.onReady`. -/
def newTexture (src : NewTS) : TexState :=
  { source := src
    trim := none
    orig := none
    frame := none
    explicitFrame := none
    uvs := [0, 0, 1, 0, 1, 1, 0, 1]
    rotationInit := 0 }

/-- `get ready()` of the new `Texture`:
`this._frame && this._frame.width && this._frame.height && this.source.ready`
(truthiness of each link; a numeric member is falsy exactly when it is 0). -/
def texReady (t : TexState) : Bool :=
  match t.frame with
  | none => false
  | some f => f.width ≠ 0 && f.height ≠ 0 && newTSReady t.source

/-- The debug-build assertion guarding `updateUVs()`: the frame must sit
inside the source dimensions (`this.source.width` / `this.source.height`,
the logical dimensions).  It is stripped from production builds. -/
def updateUVsAssertOk (t : TexState) : Bool :=
  match t.frame with
  | none => false
  | some v =>
    decide (0 ≤ v.x) && decide (0 ≤ v.y) &&
    decide (v.x + v.width ≤ t.source.width) &&
    decide (v.y + v.height ≤ t.source.height)

/-- Modelled from the spec: the validity law of claim C5 —
`valid ⟺ ready ∧ frame.x ≥ 0 ∧ frame.y ≥ 0 ∧ frame.x + frame.w ≤ realWidth ∧
frame.y + frame.h ≤ realHeight`, with the frame having positive extent,
where `ready` is the readiness of the device resource. -/
def validitySpecLaw (t : TexState) : Bool :=
  match t.frame with
  | none => false
  | some f =>
    newTSReady t.source &&
    decide (0 < f.width) && decide (0 < f.height) &&
    decide (0 ≤ f.x) && decide (0 ≤ f.y) &&
    decide (f.x + f.width ≤ t.source.width * t.source.resolution) &&
    decide (f.y + f.height ≤ t.source.height * t.source.resolution)

/-- Modelled from the spec, amended to the code: validity is source
readiness plus an assigned frame of nonzero extent; bounds do not enter the
predicate. -/
def validityAmended (t : TexState) : Bool :=
  match t.frame with
  | none => false
  | some f => newTSReady t.source && f.width ≠ 0 && f.height ≠ 0

/-- `Texture.EMPTY`: a texture over a source over a `BufferResource` of an
empty `Uint8Array`. -/
def emptyTexture : TexState :=
  newTexture (newTextureSource (mkBufferResource 0) defaultTextureSourceOptions)

/-- The destroy override installed on `Texture.EMPTY`:
`function _emptyDestroy() { /* empty */ }` — the body is empty, the state
is untouched. -/
def emptyDestroy (t : TexState) : TexState := t

/-- The destroy override installed on `Texture.EMPTY.source` (same empty
body). -/
def emptySourceDestroy (s : NewTS) : NewTS := s

/-! ## Material (second variant) -/

/-- The live value of a uniform: a single number or an array of numbers. -/
inductive UniValue
  | single (v : ℤ)
  | arr (vs : List ℤ)
deriving DecidableEq

/-- One reflected uniform descriptor.  `uid` stands for the JavaScript
object identity of the `UniformData` instance (the pending list stores
references compared with `===`). -/
structure UniformData where
  uid : ℕ
  value : UniValue
  isTexture : Bool
  size : ℕ
  textureSlot : ℕ
deriving DecidableEq

structure MaterialState where
  descs : List UniformData
  textureUniforms : List ℕ
  pendingUniformUploads : List ℕ
deriving DecidableEq

/-- `_parseUniformData` (the part with observable state): every descriptor
with `isTexture` is pushed into `_textureUniforms` in reflection order, and
`_pendingUniformUploads` starts empty. -/
def mkMaterial (ds : List UniformData) : MaterialState :=
  { descs := ds
    textureUniforms := (ds.filter (fun d => d.isTexture)).map (fun d => d.uid)
    pendingUniformUploads := [] }

def getDesc (m : MaterialState) (u : ℕ) : Option UniformData :=
  m.descs.find? (fun d => d.uid == u)

def setDescValue (m : MaterialState) (u : ℕ) (v : UniValue) : MaterialState :=
  { m with
      descs := m.descs.map (fun d => if d.uid = u then { d with value := v } else d) }

/-- The enqueue step shared by every setter:
`if (this._pendingUniformUploads.indexOf(uniformData)) push(uniformData)`.
The guard is the truthiness of the index itself: `-1` (absent) and every
index `≥ 1` are truthy, only index `0` is falsy. -/
def enqueuePendingUpload (u : ℕ) (m : MaterialState) : MaterialState :=
  if jsIndexOf m.pendingUniformUploads u ≠ 0 then
    { m with pendingUniformUploads := m.pendingUniformUploads ++ [u] }
  else m

/-- The single-value setter (`typeSize === 1`): compare with `!==`, store on
change, then the enqueue step. -/
def setUniformSingle (u : ℕ) (v : ℤ) (m : MaterialState) : MaterialState :=
  match getDesc m u with
  | none => m
  | some d =>
    match d.value with
    | .single cur =>
      if cur ≠ v then enqueuePendingUpload u (setDescValue m u (.single v))
      else m
    | .arr _ => m

/-- The loop of the array-compare setter: walks the indices of the current
value, copies each differing element of the new value in and flags
`different`.  The debug assertion of the source requires the two lengths to
be equal; a shorter candidate leaves the tail in place here. -/
def copyChangedElements : List ℤ → List ℤ → List ℤ × Bool
  | [], _ => ([], false)
  | cur, [] => (cur, false)
  | c :: cs, n :: ns =>
    let r := copyChangedElements cs ns
    (n :: r.1, (decide (c ≠ n) || r.2))

/-- The array-compare setter (non-array uniforms of array type): elementwise
compare and copy, then the enqueue step when any element differed. -/
def setUniformArrayCompare (u : ℕ) (v : List ℤ) (m : MaterialState) : MaterialState :=
  match getDesc m u with
  | none => m
  | some d =>
    match d.value with
    | .arr cur =>
      let r := copyChangedElements cur v
      let m1 := setDescValue m u (.arr r.1)
      if r.2 then enqueuePendingUpload u m1 else m1
    | .single _ => m

/-- The no-cache setter (`uniformData.isTexture || uniformData.size > 1`):
always stores, then the enqueue step. -/
def setUniformNoCache (u : ℕ) (v : UniValue) (m : MaterialState) : MaterialState :=
  match getDesc m u with
  | none => m
  | some _ => enqueuePendingUpload u (setDescValue m u v)

/-- One host-API call emitted by `syncUniforms`. -/
inductive GpuCall
  | bindTexture (slot : ℕ) (value : UniValue)
  | uploadUniform (u : ℕ) (value : UniValue)
deriving DecidableEq

def isBind : GpuCall → Bool
  | .bindTexture _ _ => true
  | .uploadUniform _ _ => false

/-- `syncUniforms(renderer)`: first `renderer.texture.bind(...)` for every
texture uniform, then `uniformData.upload(...)` for every entry of
`_pendingUniformUploads`.  The method mutates nothing: in particular the
pending list is not cleared. -/
def materialSyncUniforms (m : MaterialState) : List GpuCall × MaterialState :=
  let binds := m.textureUniforms.filterMap fun u =>
    (getDesc m u).map fun d => GpuCall.bindTexture d.textureSlot d.value
  let uploads := m.pendingUniformUploads.filterMap fun u =>
    (getDesc m u).map fun d => GpuCall.uploadUniform d.uid d.value
  (binds ++ uploads, m)

def syncTrace (m : MaterialState) : List GpuCall :=
  (materialSyncUniforms m).1

/-! ## `TextureUVs` (real-valued embedding)

`Math.PI`, `Math.sin` and `Math.cos` force the real numbers here.  The
backing store is a `Uint16Array`: every store runs the ToUint16 conversion
(truncate toward zero, reduce modulo 2^16), and the rotation branch reads
the already-converted values back. -/

noncomputable section

/-- Truncation toward zero of a real, as JavaScript ToIntegerOrInfinity
does for finite values. -/
def jsTruncR (x : ℝ) : ℤ :=
  if 0 ≤ x then ⌊x⌋ else -⌊-x⌋

/-- The ToUint16 conversion applied by a store into a `Uint16Array`. -/
def toUint16 (x : ℝ) : ℕ :=
  ((jsTruncR x) % 65536).toNat

/-- JavaScript remainder `x % y` for finite operands: the sign follows the
dividend, `x - y * trunc(x / y)`. -/
def jsModR (x y : ℝ) : ℝ :=
  x - y * (jsTruncR (x / y) : ℤ)

/-- `const PI2 = Math.PI * 2`. -/
def PI2 : ℝ := Real.pi * 2

structure FrameF where
  x : ℝ
  y : ℝ
  width : ℝ
  height : ℝ

/-- The first phase of `TextureUVs#set`: the four normalized corners, each
stored through ToUint16.  `tw` and `th` are `baseFrame.width` and
`baseFrame.height`. -/
def uvsPlain (f : FrameF) (tw th : ℝ) : List ℕ :=
  [ toUint16 (f.x / tw),
    toUint16 (f.y / th),
    toUint16 ((f.x + f.width) / tw),
    toUint16 (f.y / th),
    toUint16 ((f.x + f.width) / tw),
    toUint16 ((f.y + f.height) / th),
    toUint16 (f.x / tw),
    toUint16 ((f.y + f.height) / th) ]

/-- The rotation branch of `TextureUVs#set`: each stored pair is read back
(as the Uint16 value), rotated about the normalized frame center, and
stored again through ToUint16. -/
def uvsRotated (f : FrameF) (tw th rot : ℝ) : List ℕ :=
  let cx := (f.x / tw) + (f.width / 2 / tw)
  let cy := (f.y / th) + (f.height / 2 / th)
  let sr := Real.sin rot
  let cr := Real.cos rot
  let oldX := fun (i : ℕ) => (((uvsPlain f tw th).getD i 0 : ℕ) : ℝ)
  let rotX := fun (x y : ℝ) => toUint16 (cx + (((x - cx) * cr) - ((y - cy) * sr)))
  let rotY := fun (x y : ℝ) => toUint16 (cy + (((x - cx) * sr) + ((y - cy) * cr)))
  [ rotX (oldX 0) (oldX 1), rotY (oldX 0) (oldX 1),
    rotX (oldX 2) (oldX 3), rotY (oldX 2) (oldX 3),
    rotX (oldX 4) (oldX 5), rotY (oldX 4) (oldX 5),
    rotX (oldX 6) (oldX 7), rotY (oldX 6) (oldX 7) ]

/-- `TextureUVs#set(frame, baseFrame, rotation)`: store the normalized quad,
then rotate it in place when `rotation % PI2 !== 0`. -/
def uvsSet (f : FrameF) (tw th rot : ℝ) : List ℕ :=
  if jsModR rot PI2 ≠ 0 then uvsRotated f tw th rot
  else uvsPlain f tw th

end

/-! ## Concrete states used by the claim theorems -/

deriving instance DecidableEq for Except

/-- A freshly constructed old-variant source: no resource yet, sentinel
dimensions, resolution 1. -/
def freshBaseTexture : BaseTexture :=
  { uid := 1, width := -1, height := -1, resolution := 1, isPowerOfTwo := false,
    mipmap := true, premultiplyAlpha := true, scaleMode := 9729, wrapMode := 33071,
    format := 6408, ttype := 5121, target := 3553, dirtyId := 0, valid := false,
    resource := none, cacheId := none, textureCacheIds := [] }

def emptyCacheWorld : CacheWorld :=
  { baseTextureCache := [], textureCache := [] }

/-- A loaded 4 by 4 resource for the replacement scenario. -/
def resEx : OldRes :=
  { rid := 1, width := 4, height := 4, loaded := true }

/-- A texture carrying two cache aliases, with the matching cache content,
for the alias-removal witness. -/
def aliasTexture : BaseTexture :=
  { freshBaseTexture with uid := 7, textureCacheIds := ["k1", "k2"] }

def aliasWorld : CacheWorld :=
  { baseTextureCache := [("k1", 7), ("k2", 7)], textureCache := [] }

/-- A non-texture uniform descriptor of an array type (say a vec3). -/
def uArr (u : ℕ) : UniformData :=
  { uid := u, value := .arr [0, 0, 0], isTexture := false, size := 1, textureSlot := 0 }

/-- A non-texture single-value uniform descriptor (say a float). -/
def uSingle : UniformData :=
  { uid := 3, value := .single 0, isTexture := false, size := 1, textureSlot := 0 }

/-- A sampler uniform descriptor bound at slot 2. -/
def uTex : UniformData :=
  { uid := 9, value := .single 0, isTexture := true, size := 1, textureSlot := 2 }

def matArr : MaterialState := mkMaterial [uArr 1, uArr 2]

def matSingle : MaterialState := mkMaterial [uSingle]

/-- Write uniform 2, then uniform 1 twice with two distinct changed values:
the second write of uniform 1 happens while it sits at index 1 of the
pending list. -/
def matDup : MaterialState :=
  setUniformArrayCompare 1 [2, 2, 2]
    (setUniformArrayCompare 1 [1, 1, 1]
      (setUniformArrayCompare 2 [1, 1, 1] matArr))

/-- A material with one sampler uniform and one changed scalar uniform. -/
def matC3 : MaterialState := setUniformSingle 3 4 (mkMaterial [uTex, uSingle])

/-- The 256 by 256 synchronous buffer scenario. -/
def ts256 : NewTS :=
  newTextureSource (mkBufferResource 262144)
    { defaultTextureSourceOptions with width := 256, height := 256, resolution := 1 }

def tsDestroyEx : NewTS :=
  newTextureSource (mkBufferResource 0) defaultTextureSourceOptions

def tsDestroyed : NewTS := { tsDestroyEx with resource := none }

/-- A ready 100 by 100 source at resolution 1. -/
def boundsSource : NewTS :=
  newTextureSource (mkBufferResource 40000)
    { defaultTextureSourceOptions with width := 100, height := 100, resolution := 1 }

/-- A texture over `boundsSource` whose frame (90, 90, 50, 50) extends past
the 100 by 100 bounds. -/
def boundsTexture : TexState :=
  { newTexture boundsSource with
      frame := some { x := 90, y := 90, width := 50, height := 50 },
      explicitFrame := some { x := 90, y := 90, width := 50, height := 50 } }

/-! ## Supporting lemmas -/

theorem btUpdateResolution_dirtyId (t : BaseTexture) :
    (btUpdateResolution t).dirtyId = t.dirtyId := by
  unfold btUpdateResolution
  repeat' split
  all_goals rfl

theorem btValidate_dirtyId (t : BaseTexture) :
    (btValidate t).dirtyId = t.dirtyId := rfl

theorem btResourceLoaded_cases (r : OldRes) (t : BaseTexture) (h : t.resource = some r) :
    ((btResourceLoaded r t).valid = (btValidate (btUpdateResolution t)).valid ∧
      ((btValidate (btUpdateResolution t)).valid = true →
        (btResourceLoaded r t).dirtyId = t.dirtyId + 1) ∧
      ((btValidate (btUpdateResolution t)).valid = false →
        (btResourceLoaded r t).dirtyId = t.dirtyId)) := by
  unfold btResourceLoaded
  rw [h]
  by_cases hv : (btValidate (btUpdateResolution t)).valid = true
  · simp [hv, btValidate_dirtyId, btUpdateResolution_dirtyId]
  · simp only [Bool.not_eq_true] at hv
    simp [hv, btValidate_dirtyId, btUpdateResolution_dirtyId]

theorem btResourceLoaded_dirtyId_mono (r : OldRes) (t : BaseTexture) :
    t.dirtyId ≤ (btResourceLoaded r t).dirtyId := by
  unfold btResourceLoaded
  dsimp only
  repeat' split
  all_goals try simp only [btValidate_dirtyId, btUpdateResolution_dirtyId]
  all_goals omega

theorem btSetResource_dirtyId_mono (r : OldRes) (t : BaseTexture) :
    t.dirtyId ≤ (btSetResource r t).dirtyId := by
  unfold btSetResource
  dsimp only
  split
  · exact btResourceLoaded_dirtyId_mono r { t with resource := some r }
  · exact Nat.le_refl _

theorem btSetResource_valid_bump (r : OldRes) (t : BaseTexture) (h1 : r.loaded = true)
    (h2 : (btSetResource r t).valid = true) :
    t.dirtyId < (btSetResource r t).dirtyId := by
  unfold btSetResource at h2 ⊢
  rw [h1] at h2 ⊢
  simp only [if_true] at h2 ⊢
  rcases btResourceLoaded_cases r { t with resource := some r } rfl with ⟨hv, hbump, hsame⟩
  by_cases hvv : (btValidate (btUpdateResolution { t with resource := some r })).valid = true
  · have := hbump hvv
    simp only [this]
    omega
  · simp only [Bool.not_eq_true] at hvv
    rw [hv, hvv] at h2
    cases h2

theorem btAddToCache_dirtyId (t : BaseTexture) (cid : String) (w : CacheWorld) :
    (btAddToCache t cid w).1.dirtyId = t.dirtyId := by
  unfold btAddToCache
  dsimp only
  repeat' split
  all_goals rfl

theorem btDestroy_dirtyId (t : BaseTexture) (w : CacheWorld) :
    (btDestroy t w).1.dirtyId = t.dirtyId := by
  unfold btDestroy btRemoveFromCache
  dsimp only
  cases t.cacheId <;> rfl

theorem btStep_dirtyId_mono (op : BTOp) (s : BaseTexture × CacheWorld) :
    s.1.dirtyId ≤ (btStep op s).1.dirtyId := by
  obtain ⟨t, w⟩ := s
  cases op with
  | setResource r => exact btSetResource_dirtyId_mono r t
  | resourceLoaded r => exact btResourceLoaded_dirtyId_mono r t
  | resourceUpdated => exact Nat.le_succ _
  | update => exact Nat.le_succ _
  | resize a b => exact Nat.le_succ _
  | dispose => exact Nat.le_refl _
  | addToCache cid => exact (btAddToCache_dirtyId t cid w).ge
  | removeFromCache => exact Nat.le_refl _
  | destroy => exact (btDestroy_dirtyId t w).ge

theorem btRun_dirtyId_mono (ops : List BTOp) (s : BaseTexture × CacheWorld) :
    s.1.dirtyId ≤ (btRun ops s).1.dirtyId := by
  induction ops generalizing s with
  | nil => exact Nat.le_refl _
  | cons op rest ih =>
    calc s.1.dirtyId ≤ (btStep op s).1.dirtyId := btStep_dirtyId_mono op s
      _ ≤ (btRun rest (btStep op s)).1.dirtyId := ih _
      _ = (btRun (op :: rest) s).1.dirtyId := rfl

theorem cacheLookup_delete (kd k : String) (c : List (String × ℕ)) :
    cacheLookup (cacheDelete kd c) k = if k = kd then none else cacheLookup c k := by
  induction c with
  | nil => simp [cacheDelete, cacheLookup]
  | cons p rest ih =>
    obtain ⟨k2, v⟩ := p
    simp only [cacheDelete, cacheLookup]
    by_cases h1 : k2 = kd
    · rw [if_pos h1, ih]
      by_cases h2 : k = kd
      · rw [if_pos h2, if_pos h2]
      · rw [if_neg h2, if_neg h2, if_neg (fun hc => h2 (hc.symm.trans h1))]
    · rw [if_neg h1]
      simp only [cacheLookup]
      rw [ih]
      by_cases h3 : k2 = k
      · rw [if_pos h3, if_neg (fun h4 => h1 (h3.trans h4)), if_pos h3]
      · rw [if_neg h3]
        by_cases h2 : k = kd
        · rw [if_pos h2, if_pos h2]
        · rw [if_neg h2, if_neg h2, if_neg h3]

theorem cacheLookup_deleteKeys (ks : List String) (c : List (String × ℕ)) (k : String) :
    cacheLookup (deleteKeys ks c) k = if k ∈ ks then none else cacheLookup c k := by
  induction ks generalizing c with
  | nil => simp [deleteKeys]
  | cons k1 rest ih =>
    have step : deleteKeys (k1 :: rest) c = deleteKeys rest (cacheDelete k1 c) := rfl
    rw [step, ih, cacheLookup_delete]
    by_cases h1 : k ∈ rest <;> by_cases h2 : k = k1 <;>
      simp [h1, h2, List.mem_cons]

theorem cacheLookup_mem (c : List (String × ℕ)) (k : String) (v : ℕ)
    (h : cacheLookup c k = some v) : (k, v) ∈ c := by
  induction c with
  | nil => simp [cacheLookup] at h
  | cons p rest ih =>
    obtain ⟨k2, v2⟩ := p
    by_cases h2 : k2 = k
    · subst h2
      simp [cacheLookup] at h
      simp [h]
    · simp [cacheLookup, h2] at h
      exact List.mem_cons_of_mem _ (ih h)

theorem btDestroy_no_alias (t : BaseTexture) (w : CacheWorld)
    (h : ∀ p ∈ w.baseTextureCache, p.2 = t.uid → p.1 ∈ t.textureCacheIds) :
    ∀ k, cacheLookup (btDestroy t w).2.baseTextureCache k ≠ some t.uid := by
  intro k hk
  have hbase : (btDestroy t w).2.baseTextureCache =
      deleteKeys t.textureCacheIds
        (match t.cacheId with
         | some cid => cacheDelete cid w.baseTextureCache
         | none => w.baseTextureCache) := by
    unfold btDestroy btRemoveFromCache
    cases t.cacheId <;> rfl
  rw [hbase, cacheLookup_deleteKeys] at hk
  by_cases hmem : k ∈ t.textureCacheIds
  · simp [hmem] at hk
  · rw [if_neg hmem] at hk
    have hk2 : cacheLookup w.baseTextureCache k = some t.uid := by
      cases hcid : t.cacheId with
      | none => rw [hcid] at hk; exact hk
      | some cid =>
        rw [hcid, cacheLookup_delete] at hk
        by_cases hkc : k = cid
        · simp [hkc] at hk
        · rw [if_neg hkc] at hk; exact hk
    exact hmem (h (k, t.uid) (cacheLookup_mem _ _ _ hk2) rfl)

theorem syncTrace_split (m : MaterialState) :
    ∃ n, (∀ c ∈ (syncTrace m).take n, isBind c = true) ∧
      (∀ c ∈ (syncTrace m).drop n, isBind c = false) := by
  refine ⟨(m.textureUniforms.filterMap fun u =>
    (getDesc m u).map fun d => GpuCall.bindTexture d.textureSlot d.value).length, ?_, ?_⟩
  · intro c hc
    rw [show syncTrace m = _ ++ _ from rfl, List.take_left] at hc
    obtain ⟨u, _, hu⟩ := List.mem_filterMap.1 hc
    obtain ⟨d, _, hd⟩ := Option.map_eq_some'.1 hu
    rw [← hd]
    rfl
  · intro c hc
    rw [show syncTrace m = _ ++ _ from rfl, List.drop_left] at hc
    obtain ⟨u, _, hu⟩ := List.mem_filterMap.1 hc
    obtain ⟨d, _, hd⟩ := Option.map_eq_some'.1 hu
    rw [← hd]
    rfl

theorem jsTruncR_zero : jsTruncR 0 = 0 := by
  unfold jsTruncR
  rw [if_pos le_rfl, Int.floor_zero]

theorem jsModR_zero_left (y : ℝ) : jsModR 0 y = 0 := by
  unfold jsModR
  rw [zero_div, jsTruncR_zero]
  simp

theorem jsTruncR_intCast (k : ℤ) : jsTruncR (k : ℝ) = k := by
  unfold jsTruncR
  by_cases h : (0 : ℝ) ≤ (k : ℝ)
  · rw [if_pos h, Int.floor_intCast]
  · rw [if_neg h, show -((k : ℝ)) = (((-k : ℤ)) : ℝ) by push_cast; ring, Int.floor_intCast]
    omega

theorem jsModR_int_multiple (y : ℝ) (hy : y ≠ 0) (k : ℤ) : jsModR (y * k) y = 0 := by
  unfold jsModR
  rw [mul_div_cancel_left₀ _ hy, jsTruncR_intCast]
  ring

theorem PI2_ne_zero : PI2 ≠ 0 := by
  unfold PI2
  exact mul_ne_zero Real.pi_ne_zero two_ne_zero

theorem toUint16_of_Ico (x : ℝ) (h0 : 0 ≤ x) (h1 : x < 1) : toUint16 x = 0 := by
  unfold toUint16 jsTruncR
  rw [if_pos h0]
  have hf : ⌊x⌋ = 0 := by
    rw [Int.floor_eq_zero_iff]
    exact ⟨h0, h1⟩
  rw [hf]
  rfl

theorem toUint16_one : toUint16 1 = 1 := by
  unfold toUint16 jsTruncR
  rw [if_pos zero_le_one, Int.floor_one]
  rfl

/-! ## Claim theorems -/

/-- Claim C1: on the device resource, the update version counter is
strictly non-decreasing across every operation sequence, and a content
update, a resource-updated signal, and an explicit resize each strictly
increment it; replacing the resource with a loaded resource that leaves
the source valid also strictly increments it (an unloaded replacement
defers its bump to the later `resourceLoaded` step).  The final conjunct
is the `updateID` bump of the newer `UpdateComponent#update`. -/
theorem updateVersion_monotone_and_bumps :
    (∀ (s : BaseTexture × CacheWorld) (ops : List BTOp),
        s.1.dirtyId ≤ (btRun ops s).1.dirtyId) ∧
    (∀ s : BaseTexture × CacheWorld,
        s.1.dirtyId < (btStep BTOp.update s).1.dirtyId) ∧
    (∀ s : BaseTexture × CacheWorld,
        s.1.dirtyId < (btStep BTOp.resourceUpdated s).1.dirtyId) ∧
    (∀ (s : BaseTexture × CacheWorld) (a b : ℚ),
        s.1.dirtyId < (btStep (BTOp.resize a b) s).1.dirtyId) ∧
    (∀ (s : BaseTexture × CacheWorld) (r : OldRes), r.loaded = true →
        (btStep (BTOp.setResource r) s).1.valid = true →
        s.1.dirtyId < (btStep (BTOp.setResource r) s).1.dirtyId) ∧
    (∀ ts : NewTS, ts.updateID < (newUpdate ts).updateID) := by
  refine ⟨fun s ops => btRun_dirtyId_mono ops s, ?_, ?_, ?_, ?_, ?_⟩
  · intro s
    obtain ⟨t, w⟩ := s
    exact Nat.lt_succ_self _
  · intro s
    obtain ⟨t, w⟩ := s
    exact Nat.lt_succ_self _
  · intro s a b
    obtain ⟨t, w⟩ := s
    exact Nat.lt_succ_self _
  · intro s r h1 h2
    obtain ⟨t, w⟩ := s
    exact btSetResource_valid_bump r t h1 h2
  · intro ts
    exact Nat.lt_succ_self _

/-- Witness for claim C1 at a concrete input: replacing the resource of a
fresh source with a loaded 4 by 4 resource bumps the version. -/
theorem updateVersion_monotone_and_bumps_witness :
    (freshBaseTexture, emptyCacheWorld).1.dirtyId <
      (btStep (BTOp.setResource resEx) (freshBaseTexture, emptyCacheWorld)).1.dirtyId :=
  updateVersion_monotone_and_bumps.2.2.2.2.1
    (freshBaseTexture, emptyCacheWorld) resEx rfl
    (by norm_num [btStep, btSetResource, btResourceLoaded, btUpdateResolution, btValidate,
      resEx, freshBaseTexture])

/-- Claim C2 (failing input): the enqueue guard is the truthiness of
`indexOf`, so only a descriptor sitting at index 0 of the pending list is
protected from re-enqueueing.  The first four conjuncts are the scenarios
the claim gets right (three writes of one new value enqueue once; an
unchanged write enqueues nothing, for both setter kinds).  The last two
exhibit the failure: after uniform 2 and then uniform 1 are enqueued,
writing uniform 1 again with a second distinct changed value finds it at
index 1 — truthy — and enqueues a duplicate. -/
theorem pending_upload_guard_truthiness :
    (setUniformArrayCompare 1 [5, 5, 5] (setUniformArrayCompare 1 [5, 5, 5]
        (setUniformArrayCompare 1 [5, 5, 5] matArr))).pendingUniformUploads = [1] ∧
    (setUniformSingle 3 4 (setUniformSingle 3 4
        (setUniformSingle 3 4 matSingle))).pendingUniformUploads = [3] ∧
    (setUniformArrayCompare 1 [0, 0, 0] matArr).pendingUniformUploads = [] ∧
    (setUniformSingle 3 0 matSingle).pendingUniformUploads = [] ∧
    matDup.pendingUniformUploads = [2, 1, 1] ∧
    matDup.pendingUniformUploads.count 1 = 2 := by
  decide

/-- Claim C3 (counterexample): `syncUniforms` never clears
`_pendingUniformUploads`; after a sync of a material with one pending
scalar the pending set still holds that entry, so a second sync uploads
it again. -/
theorem syncUniforms_leaves_pending_nonempty :
    (materialSyncUniforms matC3).2.pendingUniformUploads = [3] ∧
    (materialSyncUniforms matC3).2.pendingUniformUploads ≠ [] := by
  decide

/-- Claim C3 (amended): in the GPU-call sequence emitted by one
`syncUniforms` pass, every sampler slot-bind precedes every uniform
upload; but the call leaves the material state — including the
pending-upload set — entirely unchanged, instead of clearing it. -/
theorem syncUniforms_binds_before_uploads :
    (∀ m : MaterialState, ∃ n,
        (∀ c ∈ (syncTrace m).take n, isBind c = true) ∧
        (∀ c ∈ (syncTrace m).drop n, isBind c = false)) ∧
    (∀ m : MaterialState, (materialSyncUniforms m).2 = m) :=
  ⟨syncTrace_split, fun _ => rfl⟩

/-- Witness for claim C3 at a concrete material. -/
theorem syncUniforms_binds_before_uploads_witness :
    ∃ n, (∀ c ∈ (syncTrace matC3).take n, isBind c = true) ∧
      (∀ c ∈ (syncTrace matC3).drop n, isBind c = false) :=
  syncUniforms_binds_before_uploads.1 matC3

/-- Claim C4 (failing input): the UV store is a `Uint16Array`, so the
normalized corners are truncated to integers.  The frame (10, 10, 50, 50)
on a 100 by 100 base stores all zeros instead of values spanning 0.1 to
0.6; only the degenerate 0 and 1 values of a full-frame quad survive the
conversion (second conjunct). -/
theorem uvs_uint16_truncates :
    uvsSet ⟨10, 10, 50, 50⟩ 100 100 0 = [0, 0, 0, 0, 0, 0, 0, 0] ∧
    uvsSet ⟨0, 0, 256, 128⟩ 256 128 0 = [0, 0, 1, 0, 1, 1, 0, 1] := by
  constructor <;>
    rw [uvsSet, if_neg (fun h => h (jsModR_zero_left PI2))] <;>
    unfold uvsPlain <;>
    simp only [List.cons.injEq, and_true] <;>
    norm_num <;>
    repeat' apply And.intro
  all_goals first
    | exact toUint16_one
    | (apply toUint16_of_Ico <;> norm_num)

/-- Claim C5 (counterexample): a ready 100 by 100 source with frame
(90, 90, 50, 50) — positive extent but extending past the bounds — still
satisfies the `ready` predicate of the texture, so the claimed validity
law fails: bounds are not part of the predicate. -/
theorem texture_ready_ignores_bounds :
    ¬ ((texReady boundsTexture = true) ↔ (validitySpecLaw boundsTexture = true)) := by
  have h1 : texReady boundsTexture = true := by decide
  have h2 : validitySpecLaw boundsTexture = false := by
    norm_num [validitySpecLaw, boundsTexture, boundsSource, newTexture, newTextureSource,
      newSetResource, resLoadedProp, newTSReady, mkBufferResource, mkTextureResource,
      defaultTextureSourceOptions]
  rw [h1, h2]
  simp

/-- Claim C5 (amended): the validity predicate of a texture view is
exactly: the device resource is ready, a frame is assigned, and the frame
width and height are nonzero.  Frame bounds are checked only by the
debug-build assertion in `updateUVs` (see `updateUVsAssertOk`, which the
counterexample state fails), never by the validity predicate. -/
theorem texReady_eq_nonzero_frame_and_source_ready (t : TexState) :
    texReady t = validityAmended t := by
  unfold texReady validityAmended
  cases t.frame with
  | none => rfl
  | some f =>
    dsimp only
    cases hw : decide (f.width ≠ 0) <;> cases hh : decide (f.height ≠ 0) <;>
      cases hr : newTSReady t.source <;> rfl

/-- Claim C6: destroying an old-variant source removes every alias from
the cache: in general, whenever every cache key mapping to the texture is
recorded among its alias list, no key resolves to the texture after
destroy; and in the concrete scenario add(k1), add(k2), destroy from an
empty cache, both keys resolve to nothing. -/
theorem destroy_removes_all_cache_aliases :
    (∀ (t : BaseTexture) (w : CacheWorld),
        (∀ p ∈ w.baseTextureCache, p.2 = t.uid → p.1 ∈ t.textureCacheIds) →
        ∀ k, cacheLookup (btDestroy t w).2.baseTextureCache k ≠ some t.uid) ∧
    (cacheLookup (btRun [.addToCache "k1", .addToCache "k2", .destroy]
        (freshBaseTexture, emptyCacheWorld)).2.baseTextureCache "k1" = none ∧
      cacheLookup (btRun [.addToCache "k1", .addToCache "k2", .destroy]
        (freshBaseTexture, emptyCacheWorld)).2.baseTextureCache "k2" = none) :=
  ⟨btDestroy_no_alias, by decide, by decide⟩

/-- Witness for claim C6 at a concrete input: a texture with aliases k1
and k2 and the matching cache; after destroy, k1 no longer resolves to
the texture. -/
theorem destroy_removes_all_cache_aliases_witness :
    cacheLookup (btDestroy aliasTexture aliasWorld).2.baseTextureCache "k1" ≠ some 7 :=
  destroy_removes_all_cache_aliases.1 aliasTexture aliasWorld (by decide) "k1"

/-- Claim C7 (failing input): constructing a source over a synchronous
256 by 256 buffer at resolution 1 yields `ready = true` and the claimed
dimensions, but `isPowerOfTwo` stays `false`: the ready path
(`_onResourceReady`) never runs, because `resource.loaded` is an
undefined member and the `onReady` dispatch of `BufferResource` precedes
the subscription.  Had the ready path run on this state it would have set
the flag (last conjunct). -/
theorem buffer_source_ready_path_unreachable :
    newTSReady ts256 = true ∧ ts256.width = 256 ∧ ts256.height = 256 ∧
    ts256.isPowerOfTwo = false ∧
    (newOnResourceReady ts256).isPowerOfTwo = true := by
  refine ⟨by decide, by decide, by decide, by decide, ?_⟩
  norm_num [newOnResourceReady, newUpdateDimensions, newUpdate, newTSReady, jsIsPow2, ratTrunc,
    ts256, newTextureSource, newSetResource, resLoadedProp, mkBufferResource, mkTextureResource,
    newResReady, defaultTextureSourceOptions]
  decide

/-- Claim C8: a full-turn rotation (any integer multiple of two pi) gives
exactly the UV quad of rotation zero: the remainder test skips the
rotation branch in both cases. -/
theorem uvsSet_full_turn (f : FrameF) (tw th : ℝ) (k : ℤ) :
    uvsSet f tw th (PI2 * k) = uvsSet f tw th 0 := by
  unfold uvsSet
  rw [if_neg (fun h => h (jsModR_int_multiple PI2 PI2_ne_zero k)),
    if_neg (fun h => h (jsModR_zero_left PI2))]

/-- Claim C9 (failing input): the first destroy of a new-variant source
succeeds and releases the resource; the second destroy dereferences the
nulled `_resource` and throws a `TypeError` instead of being a no-op. -/
theorem double_destroy_throws :
    newDestroy tsDestroyEx = Except.ok tsDestroyed ∧
    newDestroy tsDestroyed = Except.error JsError.typeError := by
  decide

/-- Claim C10: the destroy overrides installed on `Texture.EMPTY` and its
source are no-ops: every field (source, frame, uvs) is unchanged; the
regular source destroy would have changed the state (last conjunct), so
the override is what protects the shared empty texture. -/
theorem empty_texture_destroy_noop :
    emptyDestroy emptyTexture = emptyTexture ∧
    (emptyDestroy emptyTexture).source = emptyTexture.source ∧
    (emptyDestroy emptyTexture).frame = emptyTexture.frame ∧
    (emptyDestroy emptyTexture).uvs = emptyTexture.uvs ∧
    emptySourceDestroy emptyTexture.source = emptyTexture.source ∧
    newDestroy emptyTexture.source ≠ Except.ok emptyTexture.source := by
  refine ⟨rfl, rfl, rfl, rfl, rfl, by decide⟩
